import Mathlib

/-
Verification of the asynchronous batch question-generation workflow of the
cloud_prepper_api repository.  The definitions below are a shallow embedding
of the JavaScript source in src/unnamed/part_006 (the most recent iteration
of the questions router, starting near line 1890).  Timestamps are modelled
as natural numbers (milliseconds since the epoch), database rows as Lean
structures, the batch-jobs table as a `List BatchJob`, and fallible
operations as `Except`/`Option` values.  Status values are kept as strings
because the source compares and stores them as strings and (see
`mapProcessingStatus`) can write values outside the documented enum.
-/

namespace CloudPrepper

/-- A generated exam question.  All claims treat a question as an opaque
parsed JSON value, so it is modelled by its serialized text only. -/
structure Question where
  text : String
deriving DecidableEq, Repr

/-- The value held by the `results` JSONB column (or by the parsed body of a
stored results string): a JSON array of questions, a single non-array JSON
value, or text that `JSON.parse` rejects.  (A stored JSON `null` behaves
like `malformed` for every reader in scope: it yields no questions.) -/
inductive ResultsVal
  | arr (qs : List Question)
  | single (q : Question)
  | malformed (raw : String)
deriving DecidableEq, Repr

/-- How the endpoints recover a question list from the stored `results`
column (part_006 lines 3714-3728, 3770-3784, 4334-4349): a JSON array is
used as-is, a non-array value is wrapped in a one-element array, and a
parse failure is caught, leaving the empty list. -/
def parseStoredResults : ResultsVal → List Question
  | .arr qs => qs
  | .single q => [q]
  | .malformed _ => []

/-- One row of `prepper.batch_jobs` (columns used by the batch workflow;
see the INSERT at part_006 lines 2544-2551). -/
structure BatchJob where
  batch_id : String
  anthropic_batch_id : String
  status : String
  user_id : Option Int := none
  username : Option String := none
  certification_type : Option String := none
  count : Option Int := none
  results : Option ResultsVal := none
  error_message : Option String := none
  created_at : Nat
  updated_at : Nat
  last_polled_at : Option Nat := none
  completed_at : Option Nat := none
deriving DecidableEq, Repr

/-- JS truthiness of an optional string: present and non-empty. -/
def truthyStr : Option String → Bool
  | some s => s ≠ ""
  | none => false

/-- The `updates` object handed to `updateBatchJobStatus` by the poller
(part_006 lines 4303-4414 build it; 2638-2657 consume it).  `none` models
an absent (undefined) property. -/
structure UpdateFields where
  status : Option String := none
  results : Option (List Question) := none
  error_message : Option String := none
  completed_at : Option Nat := none
deriving DecidableEq, Repr

/-- The SET clause built by `updateBatchJobStatus` (part_006 lines
2638-2660) applied to one row: `status` and `error_message` are applied
only when truthy, `results` (JSON.stringify of the array) and
`completed_at` when not undefined, and `last_polled_at = NOW()`,
`updated_at = NOW()` are always appended. -/
def applyUpdates (now : Nat) (u : UpdateFields) (j : BatchJob) : BatchJob :=
  { j with
    status := if truthyStr u.status then u.status.getD j.status else j.status
    results := match u.results with
      | some qs => some (ResultsVal.arr qs)
      | none => j.results
    error_message := if truthyStr u.error_message then u.error_message else j.error_message
    completed_at := match u.completed_at with
      | some t => some t
      | none => j.completed_at
    last_polled_at := some now
    updated_at := now }

/-- `updateBatchJobStatus` (part_006 lines 2601-2739): an UPDATE keyed on
`batch_id`; when the query matches zero rows the function throws
(lines 2693-2701), otherwise every matching row receives the SET clause. -/
def updateBatchJobStatus (now : Nat) (store : List BatchJob) (batchId : String)
    (u : UpdateFields) : Except String (List BatchJob) :=
  if store.any (fun j => j.batch_id = batchId) then
    Except.ok (store.map (fun j => if j.batch_id = batchId then applyUpdates now u j else j))
  else
    Except.error ("UPDATE query affected 0 rows for batch_id: " ++ batchId)

/-- Default for `MAX_PENDING_AGE_HOURS` (part_006 line 1900; configurable
through the environment, default 24). -/
def defaultMaxPendingAgeHours : Nat := 24

/-- `MAX_PENDING_AGE_MS = MAX_PENDING_AGE_HOURS * 60 * 60 * 1000`
(part_006 line 1901). -/
def maxPendingAgeMs (maxHours : Nat) : Nat := maxHours * 60 * 60 * 1000

/-- The error message attached to an over-age job by both the poller
(part_006 line 4232) and the status reader (line 3580).  The source renders
the age as `batchAgeHours.toFixed(2)`; that two-decimal floating-point
rendering is abstracted here to the whole number of hours, which no claim
depends on (claims only require the threshold figure to appear). -/
def ageExceededMessage (maxHours ageMs : Nat) : String :=
  "Batch exceeded maximum pending age of " ++
    (toString maxHours ++ (" hours. Age: " ++ (toString (ageMs / 3600000) ++ " hours.")))

/-- A message mentions the age threshold when the threshold's decimal
rendering occurs in it. -/
def mentionsThreshold (maxHours : Nat) (msg : String) : Prop :=
  ∃ a b, msg = a ++ (toString maxHours ++ b)

/-- The status vocabulary the poller scans for, and the WHERE clause of
`getPendingBatches` (part_006 lines 2770-2774). -/
def pendingStatuses : List String := ["pending", "validating", "in_progress"]

/-- Insertion step for the `ORDER BY created_at ASC` of `getPendingBatches`. -/
def insertByCreatedAt (j : BatchJob) : List BatchJob → List BatchJob
  | [] => [j]
  | k :: rest =>
      if j.created_at ≤ k.created_at then j :: k :: rest
      else k :: insertByCreatedAt j rest

/-- `getPendingBatches` (part_006 lines 2767-2793): all rows whose status is
`pending`, `validating` or `in_progress`, ordered by `created_at`
ascending. -/
def getPendingBatches (store : List BatchJob) : List BatchJob :=
  (store.filter (fun j => j.status ∈ pendingStatuses)).foldr insertByCreatedAt []

/-- Outcome of `pollBatchStatusFromAPI` (part_006 lines 3893-3922) as seen by
the poller: the SDK call threw, or returned a message batch whose
`processing_status` may be absent or empty. -/
inductive RemoteStatus
  | apiError (msg : String)
  | batch (processing_status : Option String)
deriving DecidableEq, Repr

/-- Outcome of `retrieveBatchResultsFromAPI` (part_006 lines 3927-4158) as
seen by the poller: the aggregated question list, or the error thrown at
line 4156. -/
inductive RetrievalOutcome
  | ok (qs : List Question)
  | err (msg : String)
deriving DecidableEq, Repr

/-- The poller's mapping of the remote `processing_status` vocabulary onto
the local status values (part_006 lines 4276-4292): `ended` becomes
`completed`; `in_progress`, `validating`, `pending` pass through;
`expired` and `cancelled` pass through and `canceled` is normalised to
`cancelled`; any other value falls to `status = processingStatus ||
'pending'`, so a missing or empty value becomes `pending` while any other
unrecognized value passes through unchanged (after a logged warning). -/
def mapProcessingStatus (ps : Option String) : String :=
  match ps with
  | some s =>
      if s = "ended" then "completed"
      else if s = "in_progress" ∨ s = "validating" ∨ s = "pending" then s
      else if s = "expired" ∨ s = "cancelled" ∨ s = "canceled" then
        (if s = "canceled" then "cancelled" else s)
      else if s = "" then "pending" else s
  | none => "pending"

/-- What the poller does for one job of a cycle: the `updates` object it
passes to `updateBatchJobStatus`, and whether it queried the remote API
for this job. -/
structure PollStep where
  update : UpdateFields
  polledRemote : Bool
deriving DecidableEq, Repr

/-- The per-job body of `pollPendingBatches` (part_006 lines 4194-4476).

* Lines 4206-4251: if `now - created_at` exceeds the maximum pending age the
  job is updated to status `error` with the age message and
  `completed_at = now`, and the remote API is not consulted.
* Lines 4253-4301: otherwise the remote status is fetched and mapped; a
  thrown fetch error reaches the per-job catch (lines 4443-4464), which
  marks the job `error` with the exception message.
* Lines 4316-4403: a `completed` mapping triggers result retrieval.  On
  success the update carries the questions and `completed_at = now` (with a
  database fallback, lines 4329-4349, when the API returned zero questions
  but the row already holds results); the side-file write
  (`saveBatchResultsToFile`, lines 2223-2478) catches its own errors and
  returns null, so it cannot throw here.  On retrieval failure only
  `error_message` is added (lines 4395-4403) — `updates.status` keeps the
  value `completed` assigned at line 4304.
* Line 4404-4414: the `expired`/`cancelled` branch reads
  `batchStatus.error?.message`, but no `batchStatus` binding exists in this
  function (the older iteration of the file, line 1705, bound one; the
  rewrite renamed it `messageBatch` and missed this occurrence), so the
  branch throws `ReferenceError: batchStatus is not defined`, which the
  per-job catch turns into an `error` update with that message.
* Otherwise (line 4303) the update carries the mapped status only. -/
def pollOneBatch (now maxHours : Nat) (job : BatchJob)
    (remote : RemoteStatus) (retrieval : RetrievalOutcome) : PollStep :=
  if maxPendingAgeMs maxHours < now - job.created_at then
    { update := { status := some "error"
                , error_message := some (ageExceededMessage maxHours (now - job.created_at))
                , completed_at := some now }
    , polledRemote := false }
  else
    match remote with
    | .apiError msg =>
        { update := { status := some "error", error_message := some msg }
        , polledRemote := true }
    | .batch ps =>
        let status := mapProcessingStatus ps
        if status = "completed" then
          match retrieval with
          | .ok qs =>
              let allQuestions :=
                if qs = [] then
                  match job.results with
                  | some rv => parseStoredResults rv
                  | none => qs
                else qs
              { update := { status := some "completed", results := some allQuestions
                          , completed_at := some now }
              , polledRemote := true }
          | .err msg =>
              { update := { status := some "completed"
                          , error_message := some ("Failed to retrieve results: " ++ msg) }
              , polledRemote := true }
        else if status = "expired" ∨ status = "cancelled" then
          { update := { status := some "error"
                      , error_message := some "batchStatus is not defined" }
          , polledRemote := true }
        else
          { update := { status := some status }, polledRemote := true }

/-- The projection of the status endpoint's JSON body used by the claims. -/
structure StatusResp where
  httpStatus : Nat
  success : Bool
  status : Option String := none
  error_message : Option String := none
deriving DecidableEq, Repr

/-- The status reader `router.get('/batch/:batchId/status')` (part_006 lines
3553-3668; `handleBatchStatusRequest`, lines 3307-3422, applies the same
rule).  An unknown id yields 404.  Otherwise, when the stored status is not
`expired`, `completed` or `error` and the job's age exceeds the maximum
pending age, the reported status is forced to `expired` with the age
message; otherwise the stored status and `error_message || null` are
reported.  (The `created_at` null-guard of line 3573 is vacuous here since
the column is modelled as always present.) -/
def batchStatusRead (now maxHours : Nat) (jobLookup : Option BatchJob) : StatusResp :=
  match jobLookup with
  | none => { httpStatus := 404, success := false }
  | some job =>
      if job.status ≠ "expired" ∧ job.status ≠ "completed" ∧ job.status ≠ "error" ∧
          maxPendingAgeMs maxHours < now - job.created_at then
        { httpStatus := 200, success := true, status := some "expired"
        , error_message := some (ageExceededMessage maxHours (now - job.created_at)) }
      else
        { httpStatus := 200, success := true, status := some job.status
        , error_message := if truthyStr job.error_message then job.error_message else none }

/-- Outcome of the `anthropic.messages.batches.create` call inside
`submitBatchRequest`: it threw, or it returned a batch object whose `id`
may be absent (modelled `none`) or empty (both falsy in JS). -/
inductive SubmitOutcome
  | throwErr (msg : String)
  | response (id : Option String)
deriving DecidableEq, Repr

/-- `submitBatchRequest` (part_006 lines 3819-3887): returns `batch.id` on
success; a missing or falsy id raises `Invalid batch response: missing
batch ID` inside the try block, and the catch (lines 3871-3886) rewraps
every failure as `Batch submission failed: ...` and rethrows. -/
def submitBatchRequest (outcome : SubmitOutcome) : Except String String :=
  match outcome with
  | .throwErr msg => Except.error ("Batch submission failed: " ++ msg)
  | .response none =>
      Except.error ("Batch submission failed: " ++ "Invalid batch response: missing batch ID")
  | .response (some id) =>
      if id = "" then
        Except.error ("Batch submission failed: " ++ "Invalid batch response: missing batch ID")
      else Except.ok id

/-- A JavaScript value supplied as the `user_id` of a batch job.  A finite
number is carried as a rational (`Number.isInteger` holds when its
denominator is 1); `jnanOrInf` stands for NaN and the infinities, which
have `typeof === 'number'` but fail `Number.isInteger`. -/
inductive JsValue
  | jnull
  | jundef
  | jnum (q : Rat)
  | jnanOrInf
  | jstr (s : String)
  | jbool (b : Bool)
  | jobj
deriving DecidableEq, Repr

/-- `parseInt(s, 10)`: skip leading whitespace, take an optional sign and
then the leading run of decimal digits; no digit yields NaN (`none`);
trailing non-digits are ignored. -/
def jsParseInt10 (s : String) : Option Int :=
  let cs := s.toList.dropWhile (fun c => c = ' ' ∨ c = '\t' ∨ c = '\n' ∨ c = '\r')
  let signAndRest : Int × List Char :=
    match cs with
    | '-' :: r => (-1, r)
    | '+' :: r => (1, r)
    | r => (1, r)
  let digits := signAndRest.2.takeWhile Char.isDigit
  if digits = [] then none
  else some (signAndRest.1 *
    ((digits.foldl (fun a c => a * 10 + (c.toNat - '0'.toNat)) 0 : Nat) : Int))

/-- The `user_id` validation of `storeBatchJob` (part_006 lines 2519-2542):
null, undefined and the empty string are rejected up front; a number is
kept only when `Number.isInteger` holds and it is positive; a string is
run through `parseInt(s, 10)` and kept only when the result is a positive
integer; every other type leaves the validated id null. -/
def validateUserId : JsValue → Option Int
  | .jnull => none
  | .jundef => none
  | .jnum q => if q.den = 1 ∧ 0 < q.num then some q.num else none
  | .jnanOrInf => none
  | .jstr s =>
      if s = "" then none
      else
        match jsParseInt10 s with
        | some n => if 0 < n then some n else none
        | none => none
  | .jbool _ => none
  | .jobj => none

/-- The `batchData` argument of `storeBatchJob` (fields used by the
claims). -/
structure StoreBatchData where
  batch_id : String
  anthropic_batch_id : String
  user_id : JsValue := .jnull
  username : Option String := none
  certification_type : Option String := none
  count : Option Int := none
deriving DecidableEq, Repr

/-- The row inserted by `storeBatchJob` (part_006 lines 2544-2566): status
is the literal `'pending'`, `user_id` is the validated value, and
`created_at = updated_at = NOW()`. -/
def mkStoredBatchJob (now : Nat) (d : StoreBatchData) : BatchJob :=
  { batch_id := d.batch_id
  , anthropic_batch_id := d.anthropic_batch_id
  , status := "pending"
  , user_id := validateUserId d.user_id
  , username := d.username
  , certification_type := d.certification_type
  , count := d.count
  , created_at := now
  , updated_at := now }

/-- `storeBatchJob` (part_006 lines 2483-2596) as an insertion into the
batch-jobs table. -/
def storeBatchJob (now : Nat) (d : StoreBatchData) (store : List BatchJob) : List BatchJob :=
  store ++ [mkStoredBatchJob now d]

/-- The request body of `POST /generateBatch` (fields the control flow
reads; `count` is a JS number, with `0` falsy). -/
structure GenerateReq where
  certification_type : Option String := none
  count : Option Int := none
deriving DecidableEq, Repr

/-- The projection of the submit endpoint's JSON body used by the claims. -/
structure GenerateResp where
  httpStatus : Nat
  success : Bool
  batch_id : Option String := none
  anthropic_batch_id : Option String := none
  status : Option String := none
deriving DecidableEq, Repr

/-- The closed set of certification types (part_006 line 3091). -/
def allowedCertTypes : List String := ["CV0-004", "SAA-C03"]

/-- `router.post('/generateBatch')` (part_006 lines 3035-3280).  Validation:
a falsy `certification_type` or `count` is a 400, a type outside the
allowed set is a 400, `count < 1` is a 400, an unconfigured batch URL is a
500.  Then `submitBatchRequest` runs; if it throws, the catch (lines
3265-3279) answers 500 and `storeBatchJob` is never reached, so the store
is unchanged.  On success exactly one row is inserted (status `pending`,
`anthropic_batch_id` the id the remote returned) and the endpoint answers
immediately with `status: 'pending'`. -/
def generateBatch (now : Nat) (req : GenerateReq) (user_id : JsValue)
    (username : Option String) (batchUrlOk : Bool) (localBatchId : String)
    (submit : SubmitOutcome) (store : List BatchJob) :
    GenerateResp × List BatchJob :=
  match req.certification_type with
  | none => ({ httpStatus := 400, success := false }, store)
  | some ct =>
      if ct = "" then ({ httpStatus := 400, success := false }, store)
      else
        match req.count with
        | none => ({ httpStatus := 400, success := false }, store)
        | some c =>
            if c = 0 then ({ httpStatus := 400, success := false }, store)
            else if ct ∉ allowedCertTypes then
              ({ httpStatus := 400, success := false }, store)
            else if c < 1 then ({ httpStatus := 400, success := false }, store)
            else if ¬ batchUrlOk then ({ httpStatus := 500, success := false }, store)
            else
              match submitBatchRequest submit with
              | Except.error _ => ({ httpStatus := 500, success := false }, store)
              | Except.ok remoteId =>
                  ({ httpStatus := 200, success := true
                   , batch_id := some localBatchId
                   , anthropic_batch_id := some remoteId
                   , status := some "pending" },
                   storeBatchJob now
                     { batch_id := localBatchId
                     , anthropic_batch_id := remoteId
                     , user_id := user_id
                     , username := username
                     , certification_type := some ct
                     , count := some c } store)

/-- The projection of the results endpoint's JSON body used by the claims.
`questions = none` models the property being `undefined` (omitted);
`partResults` models the JSON field `partial_results`. -/
structure ResultsResp where
  httpStatus : Nat
  success : Bool
  status : Option String := none
  error_message : Option String := none
  partResults : Option Bool := none
  questions : Option (List Question) := none
  count : Option Nat := none
deriving DecidableEq, Repr

/-- `batchJob.status || 'unknown'` (part_006 line 3709). -/
def orUnknown (s : String) : String := if s = "" then "unknown" else s

/-- The question list an endpoint recovers from a row's `results` column
(`if (batchJob.results) { try parse ... }` with `questions` staying `[]`
otherwise). -/
def storedQuestions (job : BatchJob) : List Question :=
  match job.results with
  | some rv => parseStoredResults rv
  | none => []

/-- `router.get('/batch/:batchId/results')` (part_006 lines 3694-3814;
`router.get('/batchResults/:batchId')`, lines 3430-3545, is a verbatim
copy of the same logic).  An unknown id is a 404.  A job in status `error`
answers 200 with `success: false`, the stored error message (or `Unknown
error occurred`), `partial_results = (questions.length > 0)` and the
parsed stored questions when there are any (`undefined` otherwise).
`expired`/`cancelled` and not-yet-completed statuses answer 200 with
`success: false`; `completed` answers the parsed questions. -/
def batchResultsRead (jobLookup : Option BatchJob) : ResultsResp :=
  match jobLookup with
  | none => { httpStatus := 404, success := false }
  | some job =>
      let st := orUnknown job.status
      if st = "error" then
        let qs := storedQuestions job
        { httpStatus := 200, success := false, status := some st
        , error_message := some
            (if truthyStr job.error_message then job.error_message.getD ""
             else "Unknown error occurred")
        , partResults := some (decide (0 < qs.length))
        , questions := if 0 < qs.length then some qs else none }
      else if st = "expired" ∨ st = "cancelled" then
        { httpStatus := 200, success := false, status := some st
        , error_message := some
            (if truthyStr job.error_message then job.error_message.getD ""
             else "Batch was " ++ st) }
      else if st ≠ "completed" then
        { httpStatus := 200, success := false, status := some st }
      else
        let qs := storedQuestions job
        { httpStatus := 200, success := true, status := some "completed"
        , count := some qs.length, questions := some qs }

/-- Outcome of JSON-parsing the generated text payload of one batch result
(part_006 lines 4088-4110, after the optional markdown fence is stripped):
a parse failure, a JSON array of questions, a single object, or a
primitive (the `typeof questions === 'object'` test fails, line 4126). -/
inductive GenPayload
  | parseFail
  | qarr (qs : List Question)
  | qobj (q : Question)
  | nonObject
deriving DecidableEq, Repr

/-- One successfully line-parsed NDJSON record of the results stream, with
the fields the per-record loop (part_006 lines 4019-4142) inspects.
`resultField` is the `result` property: `none` when absent, otherwise its
`type` sub-property.  `text` is the outcome of the text extraction (lines
4047-4079, either content path) combined with the payload parse: `none`
when no response text was found at either path. -/
structure BatchResultRecord where
  custom_id : String
  hasError : Bool
  resultField : Option (Option String)
  text : Option GenPayload
deriving DecidableEq, Repr

/-- One line of the NDJSON results stream after the split and blank filter
(part_006 line 3959): either `JSON.parse` rejects it or it yields a
record. -/
inductive NdLine
  | malformed (raw : String)
  | record (r : BatchResultRecord)
deriving DecidableEq, Repr

/-- The questions one record contributes (part_006 lines 4019-4142): records
with an `error` property, a non-`succeeded` result type, missing response
text, an unparsable payload, or a non-object payload are skipped with a
log; an array payload is appended wholesale, an object payload as one
question.  Every failure path `continue`s, so the loop never throws. -/
def processResultRecord (r : BatchResultRecord) : List Question :=
  if r.hasError then []
  else if (match r.resultField with
           | some t => decide (t ≠ some "succeeded")
           | none => false) then []
  else
    match r.text with
    | none => []
    | some .parseFail => []
    | some (.qarr qs) => qs
    | some (.qobj q) => [q]
    | some .nonObject => []

/-- The NDJSON stage (part_006 lines 3966-3978): each line is parsed, a
parse failure is logged and mapped to null, and nulls are filtered out.
Returns the surviving records in line order together with the number of
logged line skips. -/
def parseNdLines : List NdLine → List BatchResultRecord × Nat
  | [] => ([], 0)
  | NdLine.malformed _ :: rest =>
      let p := parseNdLines rest
      (p.1, p.2 + 1)
  | NdLine.record r :: rest =>
      let p := parseNdLines rest
      (r :: p.1, p.2)

/-- `retrieveBatchResultsFromAPI` (part_006 lines 3927-4158) on a result
stream that was fetched successfully: the NDJSON stage followed by the
per-record loop, aggregating into `allQuestions` in encounter order.
Returns the questions and the number of logged NDJSON line skips. -/
def retrieveBatchResults (lines : List NdLine) : List Question × Nat :=
  let p := parseNdLines lines
  ((p.1.map processResultRecord).flatten, p.2)

/-- A record is a well-formed single-question success: no `error` property,
result type `succeeded`, and a payload holding exactly one question. -/
def singleQuestionRecord (r : BatchResultRecord) : Prop :=
  r.hasError = false ∧ r.resultField = some (some "succeeded") ∧
    (∃ q, r.text = some (GenPayload.qobj q) ∨ r.text = some (GenPayload.qarr [q]))

/-- The scheduling state of `startBackgroundPolling` (part_006 lines
4501-4569): the `pollCount` and `lastPollTime` closures, plus the start
times of the `pollPendingBatches()` cycles whose promise has not settled
yet (the startup call at line 4516 puts its start time here first). -/
structure PollerTimerState where
  pollCount : Nat
  lastPollTime : Nat
  inFlight : List Nat
deriving DecidableEq, Repr

/-- The `setInterval` callback body (part_006 lines 4534-4562) as a state
transition: it increments `pollCount`, records `lastPollTime`, and calls
`pollPendingBatches()` unconditionally — it consults no re-entrancy guard
and does not await the previous cycle, so a new cycle joins the in-flight
set at every tick. -/
def onIntervalTick (now : Nat) (st : PollerTimerState) : PollerTimerState :=
  { pollCount := st.pollCount + 1
  , lastPollTime := now
  , inFlight := st.inFlight ++ [now] }

/-- Settlement of a cycle's promise (the `.then`/`.catch` handlers at lines
4548-4561): the cycle leaves the in-flight set. -/
def onCycleSettled (startT : Nat) (st : PollerTimerState) : PollerTimerState :=
  { st with inFlight := st.inFlight.erase startT }

/-- Because the callback launches a cycle at every firing (see
`onIntervalTick`) and the timer fires every `interval` milliseconds with
the startup cycle at time 0 (lines 4516 and 4534-4562), the k-th cycle
starts at `k * interval` regardless of earlier cycles' durations. -/
def cycleStart (interval k : Nat) : Nat := k * interval

/-- Cycle `j` is still running at time `t`, given each cycle's duration. -/
def cycleActiveAt (interval : Nat) (dur : Nat → Nat) (j t : Nat) : Prop :=
  cycleStart interval j ≤ t ∧ t < cycleStart interval j + dur j

/-- Two distinct poll cycles are simultaneously in flight at some time. -/
def cyclesOverlap (interval : Nat) (dur : Nat → Nat) : Prop :=
  ∃ j k t, j < k ∧ cycleActiveAt interval dur j t ∧ cycleActiveAt interval dur k t

/- Shared lemmas. -/

theorem mem_insertByCreatedAt (j k : BatchJob) (l : List BatchJob) :
    j ∈ insertByCreatedAt k l ↔ j = k ∨ j ∈ l := by
  induction l with
  | nil => simp [insertByCreatedAt]
  | cons a rest ih =>
      simp only [insertByCreatedAt]
      split
      · simp
      · simp [ih]
        tauto

theorem mem_foldr_insertByCreatedAt (j : BatchJob) (l : List BatchJob) :
    j ∈ l.foldr insertByCreatedAt [] ↔ j ∈ l := by
  induction l with
  | nil => simp
  | cons a rest ih => simp [List.foldr, mem_insertByCreatedAt, ih]

theorem mem_getPendingBatches (j : BatchJob) (store : List BatchJob) :
    j ∈ getPendingBatches store ↔ j ∈ store ∧ j.status ∈ pendingStatuses := by
  unfold getPendingBatches
  rw [mem_foldr_insertByCreatedAt]
  simp [List.mem_filter]

theorem pendingStatuses_not_terminal {s : String} (h : s ∈ pendingStatuses) :
    s ≠ "expired" ∧ s ≠ "completed" ∧ s ≠ "error" := by
  fin_cases h <;> refine ⟨?_, ?_, ?_⟩ <;> decide

/-- Claim C9: for every value supplied as the owner user id when a BatchJob
is created (number, string, null, or absent), the value stored in the
persisted record is either a positive integer or null: any supplied value
that is not a positive integer is coerced to null rather than stored as
garbage. -/
theorem C9_owner_id_coercion (now : Nat) (d : StoreBatchData) (store : List BatchJob) :
    storeBatchJob now d store = store ++ [mkStoredBatchJob now d]
    ∧ (mkStoredBatchJob now d).user_id = validateUserId d.user_id
    ∧ ∀ v : JsValue, validateUserId v = none ∨ ∃ n : Int, validateUserId v = some n ∧ 0 < n := by
  refine ⟨rfl, rfl, ?_⟩
  intro v
  cases v with
  | jnull => exact Or.inl rfl
  | jundef => exact Or.inl rfl
  | jnanOrInf => exact Or.inl rfl
  | jbool b => exact Or.inl rfl
  | jobj => exact Or.inl rfl
  | jnum q =>
      by_cases h : q.den = 1 ∧ 0 < q.num
      · exact Or.inr ⟨q.num, by simp [validateUserId, h], h.2⟩
      · refine Or.inl ?_
        simp only [validateUserId]
        rw [if_neg h]
  | jstr s =>
      by_cases hs : s = ""
      · exact Or.inl (by simp [validateUserId, hs])
      · cases hp : jsParseInt10 s with
        | none => exact Or.inl (by simp [validateUserId, hs, hp])
        | some n =>
            by_cases hn : 0 < n
            · exact Or.inr ⟨n, by simp [validateUserId, hs, hp, hn], hn⟩
            · exact Or.inl (by simp [validateUserId, hs, hp, hn])

/-- Claim C10: for every stored batch job whose status is `error`, the
results endpoint responds with HTTP 200 and `success: false`, and when the
job's results field holds at least one question it additionally includes
the stored partial questions in the response with `partial_results: true`
instead of withholding them. -/
theorem C10_error_partial_results (job : BatchJob) (hst : job.status = "error") :
    (batchResultsRead (some job)).httpStatus = 200
    ∧ (batchResultsRead (some job)).success = false
    ∧ (storedQuestions job ≠ [] →
        (batchResultsRead (some job)).partResults = some true
        ∧ (batchResultsRead (some job)).questions = some (storedQuestions job)) := by
  have ho : orUnknown job.status = "error" := by rw [hst]; rfl
  refine ⟨?_, ?_, ?_⟩
  · simp [batchResultsRead, ho]
  · simp [batchResultsRead, ho]
  · intro hne
    have hlen : 0 < (storedQuestions job).length := List.length_pos.mpr hne
    constructor
    · simp [batchResultsRead, ho, hlen]
    · simp [batchResultsRead, ho, hlen]

/-- A concrete error-status job with one stored partial question, for the
C10 witness. -/
def c10Job : BatchJob :=
  { batch_id := "batch_w10"
  , anthropic_batch_id := "mb_w10"
  , status := "error"
  , results := some (ResultsVal.arr [{ text := "q1" }])
  , error_message := some "boom"
  , created_at := 0
  , updated_at := 0 }

/-- Claim C10 witness: a concrete error-status job with one stored partial
question. -/
theorem C10_error_partial_results_witness :
    c10Job.status = "error" ∧ storedQuestions c10Job ≠ []
    ∧ (batchResultsRead (some c10Job)).httpStatus = 200
    ∧ (batchResultsRead (some c10Job)).success = false
    ∧ (batchResultsRead (some c10Job)).partResults = some true
    ∧ (batchResultsRead (some c10Job)).questions = some [{ text := "q1" }] := by
  have h := C10_error_partial_results c10Job rfl
  have h2 := h.2.2 (by decide)
  exact ⟨rfl, by decide, h.1, h.2.1, h2.1, h2.2.trans (by decide)⟩

/-- Claim C4 counterexample: the unrecognized remote value `finalizing` is
not mapped to `pending` — `status = processingStatus || 'pending'`
(part_006 line 4291) keeps any truthy unrecognized value. -/
theorem C4_counterexample :
    mapProcessingStatus (some "finalizing") = "finalizing"
    ∧ ("finalizing" : String) ≠ "pending" :=
  ⟨rfl, by decide⟩

/-- Claim C4 (amended): the mapping sends `ended` to `completed`, passes
`in_progress`, `validating` and `pending` through, sends `expired` and
`cancelled` through and normalises `canceled` to `cancelled`; a missing or
empty remote value defaults to `pending`, while every other unrecognized
non-empty value passes through unchanged (after a logged warning); and on
such a passthrough status the poller still writes a status-only update,
never aborting the cycle. -/
theorem C4_amended :
    (mapProcessingStatus (some "ended") = "completed"
      ∧ mapProcessingStatus (some "in_progress") = "in_progress"
      ∧ mapProcessingStatus (some "validating") = "validating"
      ∧ mapProcessingStatus (some "pending") = "pending"
      ∧ mapProcessingStatus (some "expired") = "expired"
      ∧ mapProcessingStatus (some "cancelled") = "cancelled"
      ∧ mapProcessingStatus (some "canceled") = "cancelled"
      ∧ mapProcessingStatus none = "pending"
      ∧ mapProcessingStatus (some "") = "pending")
    ∧ (∀ s : String,
        s ∉ ["ended", "in_progress", "validating", "pending", "expired",
             "cancelled", "canceled", ""] →
        mapProcessingStatus (some s) = s)
    ∧ (∀ (now maxHours : Nat) (job : BatchJob) (ps : Option String)
        (retrieval : RetrievalOutcome),
        ¬ maxPendingAgeMs maxHours < now - job.created_at →
        mapProcessingStatus ps ∉ ["completed", "expired", "cancelled"] →
        pollOneBatch now maxHours job (RemoteStatus.batch ps) retrieval =
          { update := { status := some (mapProcessingStatus ps) }, polledRemote := true }) := by
  refine ⟨⟨rfl, rfl, rfl, rfl, rfl, rfl, rfl, rfl, rfl⟩, ?_, ?_⟩
  · intro s hs
    simp only [List.mem_cons, List.not_mem_nil, or_false, not_or] at hs
    obtain ⟨h1, h2, h3, h4, h5, h6, h7, h8⟩ := hs
    simp [mapProcessingStatus, h1, h2, h3, h4, h5, h6, h7, h8]
  · intro now maxHours job ps retrieval hage hmap
    simp only [List.mem_cons, List.not_mem_nil, or_false, not_or] at hmap
    obtain ⟨m1, m2, m3⟩ := hmap
    simp [pollOneBatch, hage, m1, m2, m3]

/-- Claim C4 witness: the theorem applied to the unrecognized value
`finalizing` and a fresh in-progress job. -/
theorem C4_amended_witness :
    ("finalizing" : String) ∉ ["ended", "in_progress", "validating", "pending",
      "expired", "cancelled", "canceled", ""]
    ∧ mapProcessingStatus (some "finalizing") = "finalizing"
    ∧ pollOneBatch 1000 24
        { batch_id := "batch_w4", anthropic_batch_id := "mb_w4", status := "pending"
        , created_at := 0, updated_at := 0 }
        (RemoteStatus.batch (some "finalizing")) (RetrievalOutcome.ok []) =
        { update := { status := some (mapProcessingStatus (some "finalizing")) }
        , polledRemote := true } := by
  refine ⟨by decide, C4_amended.2.1 "finalizing" (by decide), ?_⟩
  exact C4_amended.2.2 1000 24
    { batch_id := "batch_w4", anthropic_batch_id := "mb_w4", status := "pending"
    , created_at := 0, updated_at := 0 }
    (some "finalizing") (RetrievalOutcome.ok []) (by decide) (by decide)

/-- Claim C5: the per-job step evaluated where the mapped remote status is
`expired` or `cancelled`.  The source intends to record `errorMessage` and
`completedAt` and write the status (line 4404-4414, and its own log
message there), but line 4406 reads `batchStatus.error?.message` and no
`batchStatus` binding exists in the rewritten `pollPendingBatches` (the
older iteration, line 1705, had one; line 4260 renamed it `messageBatch`),
so the branch throws `ReferenceError: batchStatus is not defined` and the
per-job catch (lines 4443-4464) marks the job `error` instead. -/
theorem C5_expired_branch_marks_error :
    (∀ retrieval : RetrievalOutcome,
      pollOneBatch 1000 24
        { batch_id := "batch_5", anthropic_batch_id := "mb_5", status := "in_progress"
        , created_at := 0, updated_at := 0 }
        (RemoteStatus.batch (some "expired")) retrieval =
        { update := { status := some "error"
                    , error_message := some "batchStatus is not defined" }
        , polledRemote := true })
    ∧ (∀ retrieval : RetrievalOutcome,
      pollOneBatch 1000 24
        { batch_id := "batch_5", anthropic_batch_id := "mb_5", status := "in_progress"
        , created_at := 0, updated_at := 0 }
        (RemoteStatus.batch (some "canceled")) retrieval =
        { update := { status := some "error"
                    , error_message := some "batchStatus is not defined" }
        , polledRemote := true })
    ∧ some "error" ≠ some "expired" := by
  refine ⟨fun r => rfl, fun r => rfl, by decide⟩

/-- A pending job created at time 0, for the C1 theorems; at `now =
90000000` (25 hours) it is over the default 24-hour threshold. -/
def c1Job : BatchJob :=
  { batch_id := "batch_1700000000000_ab12cd34"
  , anthropic_batch_id := "msgbatch_01"
  , status := "pending"
  , created_at := 0
  , updated_at := 0 }

/-- Claim C1 counterexample: for a job stuck in `pending` for 25 hours
(maxAge = 24h) the poller does not report `expired` — the age branch
(part_006 lines 4220-4241) writes status `error`. -/
theorem C1_counterexample :
    (pollOneBatch 90000000 24 c1Job
        (RemoteStatus.batch (some "in_progress")) (RetrievalOutcome.ok [])).update.status
      = some "error"
    ∧ some "error" ≠ some "expired" :=
  ⟨rfl, by decide⟩

/-- Claim C1 (amended): for every batch job whose stored status is
non-terminal (`pending`, `validating` or `in_progress`, i.e. a job the
poller's scan returns) and whose age exceeds the maximum pending age, the
poller updates the job to status `error` — not `expired` — with a non-null
errorMessage mentioning the age threshold and `completedAt = now`, and
skips remote polling for that job (the step is independent of the remote
response); the status reader, queried for the same job, reports status
`expired` with a non-null errorMessage mentioning the age threshold. -/
theorem C1_amended (store : List BatchJob) (job : BatchJob) (now maxHours : Nat)
    (hmem : job ∈ getPendingBatches store)
    (hage : maxPendingAgeMs maxHours < now - job.created_at) :
    (∀ (remote : RemoteStatus) (retrieval : RetrievalOutcome),
        pollOneBatch now maxHours job remote retrieval =
          { update := { status := some "error"
                      , error_message :=
                          some (ageExceededMessage maxHours (now - job.created_at))
                      , completed_at := some now }
          , polledRemote := false })
    ∧ mentionsThreshold maxHours (ageExceededMessage maxHours (now - job.created_at))
    ∧ (batchStatusRead now maxHours (some job)).status = some "expired"
    ∧ (batchStatusRead now maxHours (some job)).error_message =
        some (ageExceededMessage maxHours (now - job.created_at)) := by
  have hstat := pendingStatuses_not_terminal ((mem_getPendingBatches job store).mp hmem).2
  have hread : batchStatusRead now maxHours (some job) =
      { httpStatus := 200, success := true, status := some "expired"
      , error_message := some (ageExceededMessage maxHours (now - job.created_at)) } := by
    simp only [batchStatusRead]
    rw [if_pos ⟨hstat.1, hstat.2.1, hstat.2.2, hage⟩]
  refine ⟨?_, ?_, ?_, ?_⟩
  · intro remote retrieval
    simp only [pollOneBatch]
    rw [if_pos hage]
  · exact ⟨"Batch exceeded maximum pending age of ", _, rfl⟩
  · rw [hread]
  · rw [hread]

/-- Claim C1 witness: the amended theorem at the concrete 25-hour-old
pending job, as the only row of the store. -/
theorem C1_amended_witness :
    c1Job ∈ getPendingBatches [c1Job]
    ∧ maxPendingAgeMs 24 < 90000000 - c1Job.created_at
    ∧ (pollOneBatch 90000000 24 c1Job
        (RemoteStatus.batch (some "in_progress")) (RetrievalOutcome.ok [])).polledRemote = false
    ∧ (batchStatusRead 90000000 24 (some c1Job)).status = some "expired"
    ∧ (batchStatusRead 90000000 24 (some c1Job)).error_message =
        some (ageExceededMessage 24 90000000) := by
  have h := C1_amended [c1Job] c1Job 90000000 24 (by decide) (by decide)
  refine ⟨by decide, by decide, ?_, h.2.2.1, h.2.2.2⟩
  rw [h.1 (RemoteStatus.batch (some "in_progress")) (RetrievalOutcome.ok [])]

/-- An in-progress job created at time 0, young at `now = 1000`, for the C3
theorems. -/
def c3Job : BatchJob :=
  { batch_id := "batch_1700000000001_ef56ab78"
  , anthropic_batch_id := "msgbatch_02"
  , status := "in_progress"
  , created_at := 0
  , updated_at := 0 }

/-- Claim C3 counterexample: when the mapped remote status is `completed`
and result retrieval fails, the update the poller writes still carries
status `completed` (`updates.status` is assigned at part_006 line 4304 and
the retrieval catch at lines 4395-4403 only adds `error_message`), rather
than leaving the last known in-progress value. -/
theorem C3_counterexample :
    ((pollOneBatch 1000 24 c3Job (RemoteStatus.batch (some "ended"))
        (RetrievalOutcome.err "socket hang up")).update.status = some "completed")
    ∧ some "completed" ≠ some c3Job.status :=
  ⟨rfl, by decide⟩

/-- Claim C3 (amended): for every polled job whose mapped remote status is
`completed`, if the result-retrieval call fails then the poller records an
errorMessage describing the retrieval failure but still sets the job's
status to `completed` in the store (leaving `results` and `completed_at`
untouched); and because `completed` is not among the statuses
`getPendingBatches` scans, the next poll tick does not retry retrieval. -/
theorem C3_amended (now maxHours : Nat) (job : BatchJob) (msg : String)
    (hage : ¬ maxPendingAgeMs maxHours < now - job.created_at) :
    pollOneBatch now maxHours job (RemoteStatus.batch (some "ended"))
        (RetrievalOutcome.err msg) =
      { update := { status := some "completed"
                  , error_message := some ("Failed to retrieve results: " ++ msg) }
      , polledRemote := true }
    ∧ (applyUpdates now
        (pollOneBatch now maxHours job (RemoteStatus.batch (some "ended"))
          (RetrievalOutcome.err msg)).update job).status = "completed"
    ∧ (applyUpdates now
        (pollOneBatch now maxHours job (RemoteStatus.batch (some "ended"))
          (RetrievalOutcome.err msg)).update job).results = job.results
    ∧ (applyUpdates now
        (pollOneBatch now maxHours job (RemoteStatus.batch (some "ended"))
          (RetrievalOutcome.err msg)).update job).completed_at = job.completed_at
    ∧ ("completed" : String) ∉ pendingStatuses := by
  have hstep : pollOneBatch now maxHours job (RemoteStatus.batch (some "ended"))
      (RetrievalOutcome.err msg) =
      { update := { status := some "completed"
                  , error_message := some ("Failed to retrieve results: " ++ msg) }
      , polledRemote := true } := by
    simp only [pollOneBatch]
    rw [if_neg hage]
    rfl
  refine ⟨hstep, ?_, ?_, ?_, by decide⟩
  · rw [hstep]; rfl
  · rw [hstep]; rfl
  · rw [hstep]; rfl

/-- Claim C3 witness: the amended theorem at a young in-progress job whose
retrieval failed with a concrete message. -/
theorem C3_amended_witness :
    ¬ maxPendingAgeMs 24 < 1000 - c3Job.created_at
    ∧ pollOneBatch 1000 24 c3Job (RemoteStatus.batch (some "ended"))
        (RetrievalOutcome.err "socket hang up") =
      { update := { status := some "completed"
                  , error_message := some "Failed to retrieve results: socket hang up" }
      , polledRemote := true } := by
  have h := C3_amended 1000 24 c3Job "socket hang up" (by decide)
  exact ⟨by decide, h.1⟩

/-- Claim C2: for every valid submit request, a successful remote
batch-creation call yields exactly one persisted BatchJob with status
`pending` and the (non-empty) remote batch id, while a failed call — a
thrown error, or a response missing its id — yields a 500 response and
leaves the store unchanged. -/
theorem C2_submit_persistence (now : Nat) (req : GenerateReq) (uid : JsValue)
    (uname : Option String) (localId : String) (store : List BatchJob)
    (ct : String) (c : Int)
    (hct : req.certification_type = some ct) (hmem : ct ∈ allowedCertTypes)
    (hc : req.count = some c) (hc1 : 1 ≤ c) :
    (∀ id : String, id ≠ "" →
        generateBatch now req uid uname true localId
            (SubmitOutcome.response (some id)) store =
          ({ httpStatus := 200, success := true, batch_id := some localId
           , anthropic_batch_id := some id, status := some "pending" },
           store ++ [{ batch_id := localId, anthropic_batch_id := id
                     , status := "pending", user_id := validateUserId uid
                     , username := uname, certification_type := some ct
                     , count := some c, created_at := now, updated_at := now }]))
    ∧ (∀ msg : String,
        generateBatch now req uid uname true localId
            (SubmitOutcome.throwErr msg) store =
          ({ httpStatus := 500, success := false }, store))
    ∧ (generateBatch now req uid uname true localId
          (SubmitOutcome.response none) store =
        ({ httpStatus := 500, success := false }, store))
    ∧ (generateBatch now req uid uname true localId
          (SubmitOutcome.response (some "")) store =
        ({ httpStatus := 500, success := false }, store)) := by
  have hct0 : ct ≠ "" := by fin_cases hmem <;> decide
  have hc0 : c ≠ 0 := by omega
  have hclt : ¬ c < 1 := by omega
  refine ⟨?_, ?_, ?_, ?_⟩
  · intro id hid
    simp [generateBatch, hct, hct0, hc, hc0, hmem, hclt, submitBatchRequest, hid,
      storeBatchJob, mkStoredBatchJob]
  · intro msg
    simp [generateBatch, hct, hct0, hc, hc0, hmem, hclt, submitBatchRequest]
  · simp [generateBatch, hct, hct0, hc, hc0, hmem, hclt, submitBatchRequest]
  · simp [generateBatch, hct, hct0, hc, hc0, hmem, hclt, submitBatchRequest]

/-- Claim C2 witness: a valid request (CV0-004, count 3) against an empty
store, with a successful and a failed remote call. -/
theorem C2_submit_persistence_witness :
    ({ certification_type := some "CV0-004", count := some 3 } :
        GenerateReq).certification_type = some "CV0-004"
    ∧ ("CV0-004" : String) ∈ allowedCertTypes
    ∧ (1 : Int) ≤ 3
    ∧ generateBatch 1700000000000
        { certification_type := some "CV0-004", count := some 3 }
        JsValue.jnull (some "admin") true "batch_w2"
        (SubmitOutcome.response (some "msgbatch_w2")) [] =
        ({ httpStatus := 200, success := true, batch_id := some "batch_w2"
         , anthropic_batch_id := some "msgbatch_w2", status := some "pending" },
         [{ batch_id := "batch_w2", anthropic_batch_id := "msgbatch_w2"
          , status := "pending", user_id := none, username := some "admin"
          , certification_type := some "CV0-004", count := some 3
          , created_at := 1700000000000, updated_at := 1700000000000 }])
    ∧ generateBatch 1700000000000
        { certification_type := some "CV0-004", count := some 3 }
        JsValue.jnull (some "admin") true "batch_w2"
        (SubmitOutcome.throwErr "ECONNREFUSED") [] =
        ({ httpStatus := 500, success := false }, []) := by
  have h := C2_submit_persistence 1700000000000
    { certification_type := some "CV0-004", count := some 3 }
    JsValue.jnull (some "admin") "batch_w2" [] "CV0-004" 3
    rfl (by decide) rfl (by norm_num)
  refine ⟨rfl, by decide, by norm_num, ?_, h.2.1 "ECONNREFUSED"⟩
  exact (h.1 "msgbatch_w2" (by decide)).trans (by rfl)

/-- Claim C8: `update(batchId, ...)` on a non-existent `batchId` fails
(the zero-rows case raises), and on an existing `batchId` it succeeds and
applies only the supplied fields — truthy `status` and `error_message`,
defined `results` and `completed_at` — while always refreshing
`updated_at` and `last_polled_at` and leaving every other column
untouched. -/
theorem C8_update_semantics (now : Nat) (store : List BatchJob) (batchId : String)
    (u : UpdateFields) :
    ((∀ j ∈ store, j.batch_id ≠ batchId) →
        updateBatchJobStatus now store batchId u =
          Except.error ("UPDATE query affected 0 rows for batch_id: " ++ batchId))
    ∧ ((∃ j ∈ store, j.batch_id = batchId) →
        updateBatchJobStatus now store batchId u =
          Except.ok (store.map
            (fun j => if j.batch_id = batchId then applyUpdates now u j else j)))
    ∧ (∀ j : BatchJob,
        (applyUpdates now u j).updated_at = now
        ∧ (applyUpdates now u j).last_polled_at = some now
        ∧ (u.status = none → (applyUpdates now u j).status = j.status)
        ∧ (u.results = none → (applyUpdates now u j).results = j.results)
        ∧ (u.error_message = none →
            (applyUpdates now u j).error_message = j.error_message)
        ∧ (u.completed_at = none →
            (applyUpdates now u j).completed_at = j.completed_at)
        ∧ (applyUpdates now u j).batch_id = j.batch_id
        ∧ (applyUpdates now u j).anthropic_batch_id = j.anthropic_batch_id
        ∧ (applyUpdates now u j).created_at = j.created_at
        ∧ (applyUpdates now u j).user_id = j.user_id
        ∧ (applyUpdates now u j).username = j.username
        ∧ (applyUpdates now u j).certification_type = j.certification_type
        ∧ (applyUpdates now u j).count = j.count
        ∧ (∀ s, u.status = some s → s ≠ "" → (applyUpdates now u j).status = s)
        ∧ (∀ qs, u.results = some qs →
            (applyUpdates now u j).results = some (ResultsVal.arr qs))
        ∧ (∀ m, u.error_message = some m → m ≠ "" →
            (applyUpdates now u j).error_message = some m)
        ∧ (∀ t, u.completed_at = some t →
            (applyUpdates now u j).completed_at = some t)) := by
  refine ⟨?_, ?_, ?_⟩
  · intro h
    unfold updateBatchJobStatus
    rw [if_neg]
    simp only [List.any_eq_true, decide_eq_true_eq, not_exists]
    intro j
    intro hj
    exact h j hj.1 hj.2
  · rintro ⟨j, hj, hid⟩
    unfold updateBatchJobStatus
    rw [if_pos]
    simp only [List.any_eq_true, decide_eq_true_eq]
    exact ⟨j, hj, hid⟩
  · intro j
    refine ⟨rfl, rfl, ?_, ?_, ?_, ?_, rfl, rfl, rfl, rfl, rfl, rfl, rfl, ?_, ?_, ?_, ?_⟩
    · intro h; simp [applyUpdates, truthyStr, h]
    · intro h; simp [applyUpdates, h]
    · intro h; simp [applyUpdates, truthyStr, h]
    · intro h; simp [applyUpdates, h]
    · intro s hsome hs; simp [applyUpdates, truthyStr, hsome, hs]
    · intro qs hsome; simp [applyUpdates, hsome]
    · intro m hsome hm; simp [applyUpdates, truthyStr, hsome, hm]
    · intro t hsome; simp [applyUpdates, hsome]

/-- A stored row for the C8 witness. -/
def c8Job : BatchJob :=
  { batch_id := "batch_w8"
  , anthropic_batch_id := "mb_w8"
  , status := "pending"
  , created_at := 10
  , updated_at := 10 }

/-- Claim C8 witness: updating a missing id fails; updating the present id
applies the supplied status and refreshes the timestamps. -/
theorem C8_update_semantics_witness :
    (∀ j ∈ [c8Job], j.batch_id ≠ "batch_missing")
    ∧ updateBatchJobStatus 99 [c8Job] "batch_missing"
        { status := some "completed" } =
        Except.error "UPDATE query affected 0 rows for batch_id: batch_missing"
    ∧ updateBatchJobStatus 99 [c8Job] "batch_w8" { status := some "completed" } =
        Except.ok
          [{ c8Job with
              status := "completed", updated_at := 99, last_polled_at := some 99 }] := by
  have h := C8_update_semantics 99 [c8Job] "batch_missing"
    ({ status := some "completed" } : UpdateFields)
  have h2 := C8_update_semantics 99 [c8Job] "batch_w8"
    ({ status := some "completed" } : UpdateFields)
  refine ⟨by decide, ?_, ?_⟩
  · exact (h.1 (by decide)).trans (by rfl)
  · exact (h2.2.1 ⟨c8Job, by decide, by decide⟩).trans (by rfl)

theorem parseNdLines_length (lines : List NdLine) :
    (parseNdLines lines).1.length + (parseNdLines lines).2 = lines.length := by
  induction lines with
  | nil => rfl
  | cons l rest ih =>
      cases l
      · simp [parseNdLines]; omega
      · simp [parseNdLines]; omega

theorem parseNdLines_append (l1 l2 : List NdLine) :
    parseNdLines (l1 ++ l2) =
      ((parseNdLines l1).1 ++ (parseNdLines l2).1,
       (parseNdLines l1).2 + (parseNdLines l2).2) := by
  induction l1 with
  | nil => simp [parseNdLines]
  | cons l rest ih =>
      cases l
      · simp [parseNdLines, ih]; omega
      · simp [parseNdLines, ih]

theorem processResultRecord_single {r : BatchResultRecord}
    (h : singleQuestionRecord r) : ∃ q, processResultRecord r = [q] := by
  obtain ⟨he, hf, q, hq | hq⟩ := h
  · exact ⟨q, by simp [processResultRecord, he, hf, hq]⟩
  · exact ⟨q, by simp [processResultRecord, he, hf, hq]⟩

/-- Claim C6: for a result stream of N newline-delimited records of which M
are malformed JSON (and the rest well-formed single-question successes),
the retriever returns exactly N − M parsed questions — stated without
truncated subtraction as `length + M = N` — logging exactly the M
line-parse skips; and the output preserves encounter order: the questions
of a concatenated stream are the questions of the first part followed by
the questions of the second (the embedding is a total function, matching
the source's per-record catch-and-continue, so no input throws). -/
theorem C6_parser_robustness (lines l1 l2 : List NdLine) :
    ((∀ r ∈ (parseNdLines lines).1, singleQuestionRecord r) →
        (retrieveBatchResults lines).1.length + (retrieveBatchResults lines).2 =
          lines.length
        ∧ (retrieveBatchResults lines).2 = (parseNdLines lines).2)
    ∧ (retrieveBatchResults (l1 ++ l2)).1 =
        (retrieveBatchResults l1).1 ++ (retrieveBatchResults l2).1 := by
  constructor
  · intro h
    have flatlen : ∀ rs : List BatchResultRecord,
        (∀ r ∈ rs, singleQuestionRecord r) →
        ((rs.map processResultRecord).flatten).length = rs.length := by
      intro rs
      induction rs with
      | nil => intro _; rfl
      | cons a rest ih =>
          intro hall
          obtain ⟨q, hq⟩ :=
            processResultRecord_single (hall a (List.mem_cons_self a rest))
          simp [hq, ih (fun r hr => hall r (List.mem_cons_of_mem _ hr))]
    constructor
    · have := parseNdLines_length lines
      simpa [retrieveBatchResults, flatlen (parseNdLines lines).1 h] using this
    · rfl
  · simp [retrieveBatchResults, parseNdLines_append]

/-- First well-formed record of the C6 witness stream. -/
def c6Rec1 : BatchResultRecord :=
  { custom_id := "question_1"
  , hasError := false
  , resultField := some (some "succeeded")
  , text := some (GenPayload.qobj { text := "qA" }) }

/-- Second well-formed record of the C6 witness stream. -/
def c6Rec2 : BatchResultRecord :=
  { custom_id := "question_2"
  , hasError := false
  , resultField := some (some "succeeded")
  , text := some (GenPayload.qarr [{ text := "qB" }]) }

/-- A concrete three-line stream (one malformed line between two
single-question successes) for the C6 witness. -/
def c6Lines : List NdLine :=
  [NdLine.record c6Rec1, NdLine.malformed "not json", NdLine.record c6Rec2]

/-- Claim C6 witness: on the concrete stream, 2 questions come back in
encounter order and exactly 1 skip is logged. -/
theorem C6_parser_robustness_witness :
    (∀ r ∈ (parseNdLines c6Lines).1, singleQuestionRecord r)
    ∧ (retrieveBatchResults c6Lines).1.length + (retrieveBatchResults c6Lines).2 = 3
    ∧ (retrieveBatchResults c6Lines).2 = 1
    ∧ (retrieveBatchResults c6Lines).1 = [{ text := "qA" }, { text := "qB" }] := by
  have hall : ∀ r ∈ (parseNdLines c6Lines).1, singleQuestionRecord r := by
    have hrec : (parseNdLines c6Lines).1 = [c6Rec1, c6Rec2] := rfl
    rw [hrec]
    intro r hr
    fin_cases hr
    · exact ⟨rfl, rfl, { text := "qA" }, Or.inl rfl⟩
    · exact ⟨rfl, rfl, { text := "qB" }, Or.inr rfl⟩
  have h := (C6_parser_robustness c6Lines [] []).1 hall
  exact ⟨hall, h.1, by decide, by decide⟩

/-- Claim C7 counterexample: with an interval of 5 and every cycle lasting
12, cycles 0 and 1 are both in flight at time 5; operationally, the
`setInterval` callback firing at time 5 while the startup cycle (started
at 0) is still unsettled leaves two cycles in flight, because the callback
launches unconditionally. -/
theorem C7_counterexample :
    cyclesOverlap 5 (fun _ => 12)
    ∧ (onIntervalTick 5
        { pollCount := 1, lastPollTime := 0, inFlight := [0] }).inFlight = [0, 5] := by
  constructor
  · unfold cyclesOverlap cycleActiveAt cycleStart
    exact ⟨0, 1, 5, by norm_num⟩
  · rfl

/-- Claim C7 (amended): the timer starts a new poll cycle at every tick
regardless of whether the previous cycle has settled (the callback appends
to the in-flight set unconditionally), so cycles do not overlap only as
long as every cycle's duration fits within the interval; whenever a
cycle's duration exceeds the interval (and the following cycle takes any
time at all), two cycles are simultaneously in flight. -/
theorem C7_amended :
    (∀ (now : Nat) (st : PollerTimerState),
        (onIntervalTick now st).inFlight = st.inFlight ++ [now])
    ∧ (∀ (interval : Nat) (dur : Nat → Nat),
        (∀ i, dur i ≤ interval) → ¬ cyclesOverlap interval dur)
    ∧ (∀ (interval : Nat) (dur : Nat → Nat) (j : Nat),
        interval < dur j → 0 < dur (j + 1) → cyclesOverlap interval dur) := by
  refine ⟨fun now st => rfl, ?_, ?_⟩
  · rintro interval dur hle ⟨j, k, t, hjk, ⟨hj1, hj2⟩, ⟨hk1, hk2⟩⟩
    have h4 : t < k * interval := by
      calc t < j * interval + dur j := hj2
        _ ≤ j * interval + interval := Nat.add_le_add_left (hle j) _
        _ = (j + 1) * interval := (Nat.succ_mul j interval).symm
        _ ≤ k * interval := Nat.mul_le_mul_right interval (Nat.succ_le_of_lt hjk)
    exact Nat.lt_irrefl t (lt_of_lt_of_le h4 hk1)
  · intro interval dur j h hpos
    refine ⟨j, j + 1, (j + 1) * interval, Nat.lt_succ_self j, ⟨?_, ?_⟩, ⟨?_, ?_⟩⟩
    · exact Nat.mul_le_mul_right interval (Nat.le_succ j)
    · calc (j + 1) * interval = j * interval + interval := Nat.succ_mul j interval
        _ < j * interval + dur j := Nat.add_lt_add_left h _
    · exact Nat.le_refl _
    · exact Nat.lt_add_of_pos_right hpos

/-- Claim C7 witness: the amended theorem at interval 5 with all-short
cycles (no overlap) and with a first cycle of length 12 (overlap). -/
theorem C7_amended_witness :
    (onIntervalTick 7 { pollCount := 3, lastPollTime := 2, inFlight := [0, 5] }).inFlight
        = [0, 5, 7]
    ∧ (∀ i : Nat, (fun _ => 3 : Nat → Nat) i ≤ 5)
    ∧ ¬ cyclesOverlap 5 (fun _ => 3)
    ∧ (5 : Nat) < 12
    ∧ cyclesOverlap 5 (fun _ => 12) := by
  refine ⟨C7_amended.1 7 _, fun i => by norm_num, ?_, by norm_num, ?_⟩
  · exact C7_amended.2.1 5 (fun _ => 3) (fun i => by norm_num)
  · exact C7_amended.2.2 5 (fun _ => 12) 0 (by norm_num) (by norm_num)

end CloudPrepper
